import Mathlib

/-!
Shallow embedding of `nft-marketplace-v1/contracts/nft/src/helpers.rs`.

The file defines `NftContract`, a wrapper around a ledger address with three
methods: `addr` (read the held address), `call` (build an execute envelope for
an operation), and the query helpers `get_owner` / `all_tokens` (dispatch one
synchronous smart query and decode the typed response).

The message schemas (`ExecuteMsg` from `crate::contract`, `QueryMsg` and the
response types from the `cw721` crates) and the `cosmwasm_std` serialization
and querying machinery are not part of the single source file; they are
modelled from the spec, as noted on each definition.  Query dispatch is an
effect; it is embedded by pairing each query method's result with the explicit
list of query requests it dispatched, in order.
-/

/-- A ledger address.  `cosmwasm_std::Addr` wraps a string; `.into()` on an
`Addr` yields that string. -/
structure Addr where
  val : String
deriving DecidableEq, Repr

/-- Modelled from the spec: the ledger's binary encoding (`cosmwasm_std::Binary`,
produced by `to_binary`) is opaque to this core, which only produces and
forwards it; it is modelled as a stream of primitive tokens. -/
inductive Token where
  | nat (n : Nat)
  | str (s : String)
deriving DecidableEq, Repr

/-- A serialized payload: a token stream standing for `cosmwasm_std::Binary`. -/
abbrev Binary := List Token

/-- Modelled from the spec: the error taxonomy of section 7 — serialization
failure, query-level failure, deserialization failure (`cosmwasm_std::StdError`
variants used by this core). -/
inductive StdError where
  | genericErr (msg : String)
  | parseErr (target : String) (msg : String)
  | serializeErr (source : String) (msg : String)
deriving DecidableEq, Repr

/-- `cosmwasm_std::StdResult`. -/
abbrev StdResult (α : Type) := Except StdError α

/-- A native coin attached to an execute message (`cosmwasm_std::Coin`). -/
structure Coin where
  denom : String
  amount : Nat
deriving DecidableEq, Repr

/-- `cosmwasm_std::WasmMsg`: the Execute variant used by `NftContract::call` —
target address, serialized payload, attached funds. -/
inductive WasmMsg where
  | execute (contract_addr : String) (msg : Binary) (funds : List Coin)
deriving DecidableEq, Repr

/-- `cosmwasm_std::CosmosMsg`: `WasmMsg` embeds into it via `.into()`. -/
inductive CosmosMsg where
  | wasm (m : WasmMsg)
deriving DecidableEq, Repr

/-- `cosmwasm_std::WasmQuery`: the Smart variant used by the query helpers. -/
inductive WasmQuery where
  | smart (contract_addr : String) (msg : Binary)
deriving DecidableEq, Repr

/-- `cosmwasm_std::QueryRequest`: `WasmQuery` embeds into it via `.into()`. -/
inductive QueryRequest where
  | wasm (q : WasmQuery)
deriving DecidableEq, Repr

/-- Modelled from the spec: `crate::contract::ExecuteMsg` is repository code not
present under `src/`.  The spec describes it as a tagged variant defined by the
NFT contract's schema and names the `Transfer{to, tokenId}` operation
(Scenario A). -/
inductive ExecuteMsg where
  | transfer (recipient : String) (tokenId : String)
deriving DecidableEq, Repr

/-- Modelled from the spec: `cw721_base::QueryMsg` is external schema code not
present under `src/`.  The spec names `OwnerOf{tokenId, includeExpired}` and
`AllTokens{startAfter, limit}`. -/
inductive QueryMsg where
  | ownerOf (token_id : String) (include_expired : Option Bool)
  | allTokens (start_after : Option String) (limit : Option Nat)
deriving DecidableEq, Repr

/-- Modelled from the spec: `cw721::OwnerOfResponse{owner, approvals}`.  The
spec gives no structure for an approval beyond a list, so approvals are kept as
opaque strings. -/
structure OwnerOfResponse where
  owner : String
  approvals : List String
deriving DecidableEq, Repr

/-- Modelled from the spec: `cw721::TokensResponse{tokens}` — an ordered
sequence of token identifiers. -/
structure TokensResponse where
  tokens : List String
deriving DecidableEq, Repr

/-- Serialize an optional boolean field into the token stream. -/
def encodeOptBool : Option Bool → List Token
  | none => [.nat 0]
  | some b => [.nat 1, .nat (cond b 1 0)]

/-- Serialize an optional string field into the token stream. -/
def encodeOptString : Option String → List Token
  | none => [.nat 0]
  | some s => [.nat 1, .str s]

/-- Serialize an optional number field into the token stream. -/
def encodeOptNat : Option Nat → List Token
  | none => [.nat 0]
  | some n => [.nat 1, .nat n]

/-- Modelled from the spec: the ledger's binary encoding of an execute message
(the serialization `cosmwasm_std::to_binary` performs on `ExecuteMsg`).  A
variant tag followed by the fields. -/
def encodeExecuteMsg : ExecuteMsg → Binary
  | .transfer recipient tokenId => [.nat 0, .str recipient, .str tokenId]

/-- `cosmwasm_std::to_binary` at type `ExecuteMsg`: returns a `StdResult`; on
this schema the encoding is total, so it always succeeds. -/
def to_binary_execute (m : ExecuteMsg) : StdResult Binary :=
  .ok (encodeExecuteMsg m)

/-- Modelled from the spec: the ledger's binary encoding of a query message. -/
def encodeQueryMsg : QueryMsg → Binary
  | .ownerOf token_id include_expired =>
      .nat 0 :: .str token_id :: encodeOptBool include_expired
  | .allTokens start_after limit =>
      .nat 1 :: (encodeOptString start_after ++ encodeOptNat limit)

/-- `cosmwasm_std::to_binary` at type `QueryMsg`. -/
def to_binary_query (m : QueryMsg) : StdResult Binary :=
  .ok (encodeQueryMsg m)

/-- Modelled from the spec: the target schema's own decoder for execute
messages, inverse to `encodeExecuteMsg` on valid streams. -/
def from_binary_execute : Binary → StdResult ExecuteMsg
  | [.nat 0, .str recipient, .str tokenId] => .ok (.transfer recipient tokenId)
  | _ => .error (.parseErr "ExecuteMsg" "invalid encoding")

/-- Decode a token stream consisting solely of string tokens. -/
def decodeStrs : List Token → Option (List String)
  | [] => some []
  | .str s :: rest => (decodeStrs rest).map (s :: ·)
  | .nat _ :: _ => none

/-- Modelled from the spec: serialization of an ownership response. -/
def encodeOwnerOfResponse (r : OwnerOfResponse) : Binary :=
  .str r.owner :: r.approvals.map Token.str

/-- Modelled from the spec: `cosmwasm_std::from_binary` at `OwnerOfResponse`,
as invoked inside `QuerierWrapper::query`. -/
def from_binary_owner_of : Binary → StdResult OwnerOfResponse
  | .str owner :: rest =>
      match decodeStrs rest with
      | some l => .ok ⟨owner, l⟩
      | none => .error (.parseErr "OwnerOfResponse" "invalid encoding")
  | _ => .error (.parseErr "OwnerOfResponse" "invalid encoding")

/-- Modelled from the spec: serialization of a token-list response. -/
def encodeTokensResponse (r : TokensResponse) : Binary :=
  r.tokens.map Token.str

/-- Modelled from the spec: `cosmwasm_std::from_binary` at `TokensResponse`. -/
def from_binary_tokens (b : Binary) : StdResult TokensResponse :=
  match decodeStrs b with
  | some l => .ok ⟨l⟩
  | none => .error (.parseErr "TokensResponse" "invalid encoding")

/-- Modelled from the spec: the querying capability of section 6 — a synchronous
map from an encoded request to an encoded response or an error.  The Rust
`Querier` is borrowed immutably, so it is a pure function here. -/
abbrev Querier := QueryRequest → StdResult Binary

/-- `NftContract(pub Addr)`: the contract handle; field `addr0` models the
tuple field `.0`. -/
structure NftContract where
  addr0 : Addr
deriving DecidableEq, Repr

/-- `NftContract::addr`: `self.0.clone()` — return a copy of the held address. -/
def NftContract.addr (self : NftContract) : Addr :=
  self.addr0

/-- `NftContract::call<T: Into<ExecuteMsg>>`: serialize the converted operation
with the `?` operator and wrap it in a `WasmMsg::Execute` envelope addressed to
`self.addr()` with empty funds.  The trait bound is embedded as the explicit
conversion `into`. -/
def NftContract.call {T : Type} (into : T → ExecuteMsg) (self : NftContract)
    (msg : T) : StdResult CosmosMsg :=
  match to_binary_execute (into msg) with
  | .error e => .error e
  | .ok m => .ok (CosmosMsg.wasm (WasmMsg.execute self.addr.val m []))

/-- Modelled from the spec: `QuerierWrapper::query` at `OwnerOfResponse` —
dispatch one synchronous request through the capability and decode the typed
response; errors pass through.  The second component is the trace of
dispatched requests. -/
def querier_query_owner (querier : Querier) (request : QueryRequest) :
    StdResult OwnerOfResponse × List QueryRequest :=
  ((querier request).bind from_binary_owner_of, [request])

/-- Modelled from the spec: `QuerierWrapper::query` at `TokensResponse`. -/
def querier_query_tokens (querier : Querier) (request : QueryRequest) :
    StdResult TokensResponse × List QueryRequest :=
  ((querier request).bind from_binary_tokens, [request])

/-- `NftContract::get_owner`: build `QueryMsg::OwnerOf` with
`include_expired: None`, serialize it with `?`, wrap it in a smart query
addressed to `self.addr()`, dispatch it once and decode the response.  The
second component is the trace of dispatched requests. -/
def NftContract.get_owner (self : NftContract) (querier : Querier)
    (token_id : String) : StdResult OwnerOfResponse × List QueryRequest :=
  let msg := QueryMsg.ownerOf token_id none
  match to_binary_query msg with
  | .error e => (.error e, [])
  | .ok b =>
      querier_query_owner querier (QueryRequest.wasm (WasmQuery.smart self.addr.val b))

/-- `NftContract::all_tokens`: build `QueryMsg::AllTokens` with
`start_after: None, limit: None`, serialize it with `?`, wrap it in a smart
query addressed to `self.addr()`, dispatch it once and decode the response. -/
def NftContract.all_tokens (self : NftContract) (querier : Querier) :
    StdResult TokensResponse × List QueryRequest :=
  let msg := QueryMsg.allTokens none none
  match to_binary_query msg with
  | .error e => (.error e, [])
  | .ok b =>
      querier_query_tokens querier (QueryRequest.wasm (WasmQuery.smart self.addr.val b))

/-- The single query request `get_owner` dispatches for a given handle and
token identifier. -/
def ownerOfRequest (self : NftContract) (token_id : String) : QueryRequest :=
  QueryRequest.wasm (WasmQuery.smart self.addr.val
    (encodeQueryMsg (QueryMsg.ownerOf token_id none)))

/-- The single query request `all_tokens` dispatches for a given handle. -/
def allTokensRequest (self : NftContract) : QueryRequest :=
  QueryRequest.wasm (WasmQuery.smart self.addr.val
    (encodeQueryMsg (QueryMsg.allTokens none none)))

/-- Decoding a stream of string tokens recovers the original list. -/
theorem decodeStrs_map_str (l : List String) :
    decodeStrs (l.map Token.str) = some l := by
  induction l with
  | nil => rfl
  | cons s rest ih => simp [decodeStrs, ih]

/-- Decoding an encoded ownership response recovers it. -/
theorem from_binary_owner_of_encode (r : OwnerOfResponse) :
    from_binary_owner_of (encodeOwnerOfResponse r) = .ok r := by
  simp [encodeOwnerOfResponse, from_binary_owner_of, decodeStrs_map_str]

/-- Decoding an encoded token-list response recovers it. -/
theorem from_binary_tokens_encode (r : TokensResponse) :
    from_binary_tokens (encodeTokensResponse r) = .ok r := by
  simp [encodeTokensResponse, from_binary_tokens, decodeStrs_map_str]

/-- C1: for every operation convertible into the target contract's
execute-message type whose encoding succeeds, `call` returns an execute
envelope whose target address equals the handle's held address, whose payload
is the binary encoding of the operation's message variant, and whose funds
list is empty. -/
theorem call_builds_execute_envelope {T : Type} (into : T → ExecuteMsg)
    (self : NftContract) (o : T) (b : Binary)
    (h : to_binary_execute (into o) = .ok b) :
    self.call into o = .ok (CosmosMsg.wasm (WasmMsg.execute self.addr.val b [])) := by
  unfold NftContract.call
  rw [h]

/-- Witness for C1 at Scenario A: handle bound to "contractA", transfer of
token "7" to "bob". -/
theorem call_builds_execute_envelope_witness :
    to_binary_execute (id (ExecuteMsg.transfer "bob" "7")) =
      .ok [Token.nat 0, Token.str "bob", Token.str "7"] ∧
    (NftContract.mk ⟨"contractA"⟩).call id (ExecuteMsg.transfer "bob" "7") =
      .ok (CosmosMsg.wasm (WasmMsg.execute "contractA"
        [Token.nat 0, Token.str "bob", Token.str "7"] [])) :=
  ⟨rfl, call_builds_execute_envelope id (NftContract.mk ⟨"contractA"⟩)
    (ExecuteMsg.transfer "bob" "7") _ rfl⟩

/-- C2: constructing a handle from an address and then reading its address
returns that address; the accessor is a total pure function of the handle, so
it never fails and leaves the handle unchanged. -/
theorem mk_addr_roundtrip (a : Addr) : (NftContract.mk a).addr = a := rfl

/-- C3: `get_owner` dispatches exactly one smart-query round trip, addressed to
the handle's address, whose request is the OwnerOf query for the token
identifier with the include-expired flag unset. -/
theorem get_owner_single_query (self : NftContract) (querier : Querier)
    (token_id : String) :
    (self.get_owner querier token_id).2 = [ownerOfRequest self token_id] :=
  rfl

/-- C4: `all_tokens` dispatches exactly one smart-query round trip, addressed
to the handle's address, whose request is the AllTokens query with no
pagination cursor and no limit. -/
theorem all_tokens_single_query (self : NftContract) (querier : Querier) :
    (self.all_tokens querier).2 = [allTokensRequest self] :=
  rfl

/-- C5: successful query responses pass through unchanged — if the querier
answers the dispatched ownership request with an encoded ownership response,
`get_owner` returns exactly that response, and if the target answers the
token-list request with an encoded token list, `all_tokens` returns that
sequence in the same order. -/
theorem query_responses_passed_through (self : NftContract)
    (q1 q2 : Querier) (token_id : String) (r : OwnerOfResponse)
    (ts : TokensResponse)
    (h1 : q1 (ownerOfRequest self token_id) = .ok (encodeOwnerOfResponse r))
    (h2 : q2 (allTokensRequest self) = .ok (encodeTokensResponse ts)) :
    (self.get_owner q1 token_id).1 = .ok r ∧
    (self.all_tokens q2).1 = .ok ts := by
  constructor
  · show (q1 (ownerOfRequest self token_id)).bind from_binary_owner_of = .ok r
    rw [h1]
    simpa [Except.bind] using from_binary_owner_of_encode r
  · show (q2 (allTokensRequest self)).bind from_binary_tokens = .ok ts
    rw [h2]
    simpa [Except.bind] using from_binary_tokens_encode ts

/-- A querier that always answers with the Scenario B ownership response. -/
def aliceQuerier : Querier :=
  fun _ => .ok (encodeOwnerOfResponse ⟨"alice", []⟩)

/-- A querier that always answers with the Scenario D token list. -/
def threeTokensQuerier : Querier :=
  fun _ => .ok (encodeTokensResponse ⟨["1", "2", "3"]⟩)

/-- A querier that always fails with a query-level error. -/
def failingQuerier : Querier :=
  fun _ => .error (.genericErr "Querier contract error")

/-- Witness for C5 at Scenarios B and D. -/
theorem query_responses_passed_through_witness :
    ((NftContract.mk ⟨"contractA"⟩).get_owner aliceQuerier "7").1 =
      .ok ⟨"alice", []⟩ ∧
    ((NftContract.mk ⟨"contractA"⟩).all_tokens threeTokensQuerier).1 =
      .ok ⟨["1", "2", "3"]⟩ :=
  query_responses_passed_through (NftContract.mk ⟨"contractA"⟩)
    aliceQuerier threeTokensQuerier "7" ⟨"alice", []⟩ ⟨["1", "2", "3"]⟩ rfl rfl

/-- C6: a query-level failure from the querying capability is returned to the
caller unmodified by `get_owner` and by `all_tokens` — no retry (the trace
still holds the single dispatched request), no fallback, no partial result. -/
theorem query_errors_propagated (self : NftContract) (q1 q2 : Querier)
    (token_id : String) (e1 e2 : StdError)
    (h1 : q1 (ownerOfRequest self token_id) = .error e1)
    (h2 : q2 (allTokensRequest self) = .error e2) :
    self.get_owner q1 token_id = (.error e1, [ownerOfRequest self token_id]) ∧
    self.all_tokens q2 = (.error e2, [allTokensRequest self]) := by
  constructor
  · have : (q1 (ownerOfRequest self token_id)).bind from_binary_owner_of =
        .error e1 := by rw [h1]; rfl
    exact Prod.ext this rfl
  · have : (q2 (allTokensRequest self)).bind from_binary_tokens = .error e2 := by
      rw [h2]; rfl
    exact Prod.ext this rfl

/-- Witness for C6 at Scenario C: a querier that fails with a query-level
error. -/
theorem query_errors_propagated_witness :
    (NftContract.mk ⟨"contractA"⟩).get_owner failingQuerier "7" =
      (.error (.genericErr "Querier contract error"),
        [ownerOfRequest (NftContract.mk ⟨"contractA"⟩) "7"]) ∧
    (NftContract.mk ⟨"contractA"⟩).all_tokens failingQuerier =
      (.error (.genericErr "Querier contract error"),
        [allTokensRequest (NftContract.mk ⟨"contractA"⟩)]) :=
  query_errors_propagated (NftContract.mk ⟨"contractA"⟩) failingQuerier
    failingQuerier "7" (.genericErr "Querier contract error")
    (.genericErr "Querier contract error") rfl rfl

/-- C7: `call` is exactly the pure construction of the envelope from the
encoding result — no dispatch and no other effect — and it fails precisely
when the operation's message variant cannot be encoded, returning that
serialization error unmodified. -/
theorem call_pure_and_fails_iff_encode_fails {T : Type} (into : T → ExecuteMsg)
    (self : NftContract) (o : T) (e : StdError) :
    self.call into o =
      Except.map (fun b => CosmosMsg.wasm (WasmMsg.execute self.addr.val b []))
        (to_binary_execute (into o)) ∧
    (self.call into o = .error e ↔ to_binary_execute (into o) = .error e) := by
  constructor
  · simp [NftContract.call, to_binary_execute, Except.map]
  · simp [NftContract.call, to_binary_execute]

/-- Witness for C7 at Scenario A's operation. -/
theorem call_pure_and_fails_iff_encode_fails_witness :
    (NftContract.mk ⟨"contractA"⟩).call id (ExecuteMsg.transfer "bob" "7") =
      Except.map (fun b => CosmosMsg.wasm (WasmMsg.execute
          (NftContract.mk ⟨"contractA"⟩).addr.val b []))
        (to_binary_execute (id (ExecuteMsg.transfer "bob" "7"))) ∧
    ((NftContract.mk ⟨"contractA"⟩).call id (ExecuteMsg.transfer "bob" "7") =
        .error (.genericErr "e") ↔
      to_binary_execute (id (ExecuteMsg.transfer "bob" "7")) =
        .error (.genericErr "e")) :=
  call_pure_and_fails_iff_encode_fails id (NftContract.mk ⟨"contractA"⟩)
    (ExecuteMsg.transfer "bob" "7") (.genericErr "e")

/-- C8: `call` is deterministic — two invocations on the same handle with the
same operation produce identical envelopes. -/
theorem call_deterministic {T : Type} (into : T → ExecuteMsg)
    (c1 c2 : NftContract) (o1 o2 : T) (hc : c1 = c2) (ho : o1 = o2) :
    c1.call into o1 = c2.call into o2 := by
  subst hc
  subst ho
  rfl

/-- Witness for C8: two invocations at Scenario A's handle and operation. -/
theorem call_deterministic_witness :
    (NftContract.mk ⟨"contractA"⟩).call id (ExecuteMsg.transfer "bob" "7") =
      (NftContract.mk ⟨"contractA"⟩).call id (ExecuteMsg.transfer "bob" "7") :=
  call_deterministic id (NftContract.mk ⟨"contractA"⟩)
    (NftContract.mk ⟨"contractA"⟩) (ExecuteMsg.transfer "bob" "7")
    (ExecuteMsg.transfer "bob" "7") rfl rfl

/-- C9: round-trip — encoding an operation the way `call` does and decoding it
with the target schema's own decoder yields the original operation. -/
theorem execute_msg_roundtrip (m : ExecuteMsg) (b : Binary)
    (h : to_binary_execute m = .ok b) :
    from_binary_execute b = .ok m := by
  cases m with
  | transfer recipient tokenId =>
    simp only [to_binary_execute, encodeExecuteMsg, Except.ok.injEq] at h
    subst h
    rfl

/-- Witness for C9 at Scenario A's operation. -/
theorem execute_msg_roundtrip_witness :
    from_binary_execute [Token.nat 0, Token.str "bob", Token.str "7"] =
      .ok (ExecuteMsg.transfer "bob" "7") :=
  execute_msg_roundtrip (ExecuteMsg.transfer "bob" "7")
    [Token.nat 0, Token.str "bob", Token.str "7"] rfl

/-- C10: `get_owner` performs no validation of the token identifier — for every
string, including the empty string, it dispatches exactly one OwnerOf query
whose payload carries that string verbatim. -/
theorem get_owner_no_token_validation (self : NftContract) (querier : Querier)
    (token_id : String) :
    (self.get_owner querier "").2 = [ownerOfRequest self ""] ∧
    (self.get_owner querier token_id).2 =
      [QueryRequest.wasm (WasmQuery.smart self.addr.val
        (Token.nat 0 :: Token.str token_id :: encodeOptBool none))] :=
  ⟨rfl, rfl⟩
